import Mathlib

/-!
Shallow embedding of the support-system MVP (FastAPI + Celery + SQLAlchemy
repository) and proofs about its asynchronous processing pipeline.

The embedding covers:
  * `app/services/ai_classifier.py` — `SelfHostedAIClassifier`
  * `app/services/teams_notifier.py` — `TeamsNotifier`
  * `app/models.py` — `SupportRequest`
  * `app/tasks.py` — `process_support_request`, `send_teams_notification`

External library behaviour (httpx, json, the broker) is modelled as an
explicit environment value; everything the repository itself computes is
translated directly from the source.
-/

namespace SupportSystem

/-! ### String primitives (Python `in`, `lower`, slicing) -/

/-- Python list/str containment helper: does the haystack start with the needle? -/
def charsStartWith : List Char → List Char → Bool
  | [], _ => true
  | _ :: _, [] => false
  | a :: as, b :: bs => a == b && charsStartWith as bs

/-- Python `needle in hay` on character lists. -/
def charsContain (needle : List Char) : List Char → Bool
  | [] => needle.isEmpty
  | c :: cs => charsStartWith needle (c :: cs) || charsContain needle cs

/-- Python `needle in hay` on strings. -/
def strIn (needle hay : String) : Bool :=
  charsContain needle.data hay.data

/-- Python `s.lower()` (ASCII case folding, as `Char.toLower` does). -/
def pyLower (s : String) : String :=
  ⟨s.data.map Char.toLower⟩

/-- Python `s[:n]` on strings. -/
def strTake (s : String) (n : Nat) : String :=
  ⟨s.data.take n⟩

/-! ### Python exceptions and HTTP outcomes

The repository talks to httpx, the json module and the Celery broker; these
externals either return a value or raise. We model one call's outcome as a
value of `HttpOutcome`, and Python exceptions as an abstract enumeration. -/

/-- An abstract Python exception, as far as the repository distinguishes them. -/
inductive PyExn where
  | valueError (msg : String)
  | attributeError
  | timeoutError
  | httpException
  | jsonError
  | brokerError
deriving Repr, DecidableEq

/-- Outcome of one external call: a returned value, or a raised exception. -/
inductive HttpOutcome (α : Type) where
  | ok (a : α)
  | exn (e : PyExn)
deriving Repr, DecidableEq

/-- Decidable equality for `Except`, so concrete classifier outcomes can be
settled by `decide`. -/
instance {ε α : Type} [DecidableEq ε] [DecidableEq α] : DecidableEq (Except ε α) := fun x y =>
  match x, y with
  | .error a, .error b =>
      if h : a = b then .isTrue (by rw [h]) else .isFalse (fun hc => by cases hc; exact h rfl)
  | .error _, .ok _ => .isFalse (fun hc => by cases hc)
  | .ok _, .error _ => .isFalse (fun hc => by cases hc)
  | .ok a, .ok b =>
      if h : a = b then .isTrue (by rw [h]) else .isFalse (fun hc => by cases hc; exact h rfl)

/-! ### Classification Engine — `app/services/ai_classifier.py` -/

/-- A Python value found under the `confidence` key of a parsed JSON dict:
either a number (`int`/`float`, modelled as an exact rational) or something
that fails `isinstance(confidence, (int, float))`. -/
inductive PyConf where
  | num (q : Rat)
  | nonNum
deriving Repr, DecidableEq

/-- A parsed JSON dict as `validate_classification_result` receives it:
each of the three keys may be absent (`dict.get` then supplies the default). -/
structure RawResult where
  category : Option String
  summary : Option String
  confidence : Option PyConf
deriving Repr, DecidableEq

/-- The dict returned by the classifier
(`category`/`summary`/`confidence`/`method`, plus `model` and `timestamp`
keys that only the validated remote path adds). -/
structure ClassResult where
  category : String
  summary : String
  confidence : Rat
  method : String
  model : Option String
  timestamp : Option String
deriving Repr, DecidableEq

/-- Body of the `POST /api/generate` HTTP response, after the status check:
`response.json()` either raises (`notJson`) or yields a dict whose
`response` text then goes through JSON extraction, producing
`some` parsed dict or nothing parseable (`json`). -/
inductive BodyOutcome where
  | notJson
  | json (extracted : Option RawResult)
deriving Repr, DecidableEq

/-- A non-raising `POST /api/generate` response: HTTP status plus body. -/
structure GenResponse where
  status : Nat
  body : BodyOutcome
deriving Repr, DecidableEq

/-- Behaviour of the remote Ollama service during one classification:
the outcome of `GET /api/version` (its status, or a raised exception /
timeout) and the outcome of `POST /api/generate`. -/
structure RemoteEnv where
  healthOutcome : HttpOutcome Nat
  genOutcome : HttpOutcome GenResponse
deriving Repr, DecidableEq

/-- Embeds `self.fallback_categories` (ai_classifier.py lines 21–36); a Python dict
preserves insertion order, so the table is an ordered association list. -/
def fallback_categories : List (String × String) :=
  [("cancel", "cancellation_request"),
   ("refund", "cancellation_request"),
   ("stop", "cancellation_request"),
   ("billing", "billing"),
   ("payment", "billing"),
   ("invoice", "billing"),
   ("technical", "technical_issue"),
   ("bug", "technical_issue"),
   ("error", "technical_issue"),
   ("crash", "technical_issue"),
   ("feature", "feature_request"),
   ("suggestion", "feature_request"),
   ("complaint", "complaint"),
   ("problem", "complaint")]

/-- Embeds `valid_categories` (ai_classifier.py lines 171–174). -/
def valid_categories : List String :=
  ["billing", "technical_issue", "cancellation_request",
   "feature_request", "complaint", "general_inquiry", "other"]

/-- Embeds `SelfHostedAIClassifier.check_ollama_health` (lines 38–45): true iff the
GET returned status 200; any raised exception yields false. -/
def check_ollama_health (env : RemoteEnv) : Bool :=
  match env.healthOutcome with
  | .ok status => status == 200
  | .exn _ => false

/-- Embeds `SelfHostedAIClassifier.fallback_classify` (lines 47–68). -/
def fallback_classify (subject description : String) : ClassResult :=
  let text := pyLower (subject ++ " " ++ description)
  match fallback_categories.find? (fun kv => strIn kv.1 text) with
  | some kv =>
      { category := kv.2
        summary := "Fallback classification: " ++ kv.2 ++ " (keyword: " ++ kv.1 ++ ")"
        confidence := mkRat 6 10
        method := "fallback"
        model := none
        timestamp := none }
  | none =>
      { category := "general_inquiry"
        summary := "General inquiry - requires manual review"
        confidence := mkRat 5 10
        method := "fallback"
        model := none
        timestamp := none }

/-- Embeds `SelfHostedAIClassifier.parse_ai_response` (lines 139–166). The json
library behaviour (strict parse, then the regex brace scan) is abstracted
as the `extracted` outcome; the synthesised default of lines 160–166 is the
repository's own code. -/
def parse_ai_response (extracted : Option RawResult) : RawResult :=
  match extracted with
  | some r => r
  | none =>
      { category := some "general_inquiry"
        summary := some "AI parsing failed - manual review needed"
        confidence := some (.num (mkRat 3 10)) }

/-- Embeds `SelfHostedAIClassifier.validate_classification_result` (lines 168–199).
`model` and `timestamp` stand for `self.model` and
`datetime.utcnow().isoformat()`. -/
def validate_classification_result (model timestamp : String) (result : RawResult) :
    ClassResult :=
  let category0 := result.category.getD "general_inquiry"
  let category := if valid_categories.contains category0 then category0 else "general_inquiry"
  let summary0 := result.summary.getD "No summary provided"
  let summary := if 500 < summary0.length then strTake summary0 497 ++ "..." else summary0
  let confidence :=
    match result.confidence.getD (.num (mkRat 7 10)) with
    | .num q => if q < mkRat 0 1 ∨ mkRat 1 1 < q then mkRat 7 10 else q
    | .nonNum => mkRat 7 10
  { category := category
    summary := summary
    confidence := confidence
    method := "ollama_ai"
    model := some model
    timestamp := some timestamp }

/-- The body of the `try:` block of `classify_request` (lines 101–131): the
POST may raise (propagating to the handlers), a non-200 status returns the
fallback, `response.json()` may raise, and otherwise the parsed and
validated result is returned. -/
def classify_try_block (env : RemoteEnv) (model timestamp subject description : String) :
    Except PyExn ClassResult :=
  match env.genOutcome with
  | .exn e => .error e
  | .ok resp =>
      if resp.status != 200 then
        .ok (fallback_classify subject description)
      else
        match resp.body with
        | .notJson => .error .jsonError
        | .json extracted =>
            .ok (validate_classification_result model timestamp (parse_ai_response extracted))

/-- Embeds `SelfHostedAIClassifier.classify_request` (lines 70–137): health probe
first, then the try block whose raised exceptions are all caught
(`except asyncio.TimeoutError` / `except Exception`) and turned into the
fallback result. A `.error` outcome would mean an exception escaping to the
caller. -/
def classify_request (env : RemoteEnv) (model timestamp subject description : String) :
    Except PyExn ClassResult :=
  if !(check_ollama_health env) then
    .ok (fallback_classify subject description)
  else
    match classify_try_block env model timestamp subject description with
    | .error _ => .ok (fallback_classify subject description)
    | .ok r => .ok r

/-- A remote-service failure in the sense of the failure-semantics clause:
the health probe fails, the generate call raises (network error / timeout),
it returns a non-200 status, or its body is not JSON. -/
def remote_failure (env : RemoteEnv) : Bool :=
  !(check_ollama_health env) ||
    (match env.genOutcome with
     | .exn _ => true
     | .ok resp => resp.status != 200 ||
         (match resp.body with
          | .notJson => true
          | .json _ => false))

/-! ### Request Store — `app/models.py` -/

/-- Embeds `SupportRequest` (models.py lines 10–30). Timestamps are abstract ticks
(`Nat`); nullable columns are `Option`; `processing_status` and
`notification_sent` are the string columns the source declares (the code
stores the strings "true"/"false" in `notification_sent`). There is no
confidence column. -/
structure SupportRequest where
  id : Nat
  customer_name : String
  email : String
  subject : String
  description : String
  category : Option String
  ai_summary : Option String
  processing_status : String
  notification_sent : String
  created_at : Nat
  updated_at : Nat
  processed_at : Option Nat
deriving Repr, DecidableEq

/-- Embeds `db.query(SupportRequest).filter(SupportRequest.id == request_id).first()`:
first row with the given id, if any. -/
def dbFirst (db : List SupportRequest) (rid : Nat) : Option SupportRequest :=
  db.find? (fun r => r.id == rid)

/-- Committing a mutated ORM row: every row with the same primary key is
replaced by the new value. -/
def dbSave (db : List SupportRequest) (r : SupportRequest) : List SupportRequest :=
  db.map (fun x => if x.id == r.id then r else x)

/-! ### Processing Pipeline — `app/tasks.py` -/

/-- An observable side effect of one task run, in order: a `db.commit()`
(carrying the resulting store) or an enqueue of
`send_teams_notification.delay(request_id)`. -/
inductive Event where
  | commit (db : List SupportRequest)
  | enqueueNotification (rid : Nat)
deriving Repr, DecidableEq

/-- The store after a run: the last committed state, or the initial one. -/
def finalDb (db0 : List SupportRequest) (events : List Event) : List SupportRequest :=
  events.foldl (fun acc e => match e with
    | .commit d => d
    | .enqueueNotification _ => acc) db0

/-- The notification tasks a run enqueued, in order. -/
def enqueuedIds (events : List Event) : List Nat :=
  events.filterMap (fun e => match e with
    | .enqueueNotification rid => some rid
    | .commit _ => none)

/-- Environment of one `process_support_request` delivery: the remote
classifier behaviour, the broker behaviour of `.delay` (whether the enqueue
raises), the clock, and the classifier configuration strings. -/
structure ProcEnv where
  remote : RemoteEnv
  enqueueFails : Bool
  now : Nat
  model : String
  timestamp : String
deriving Repr, DecidableEq

/-- Outcome of one `process_support_request` delivery: the Python return
value (`none` for the bare `return` of the idempotency guard, or the
`{request_id, category, summary}` dict), or a raised exception. -/
inductive ProcOutcome where
  | success (ret : Option (Nat × String × String))
  | raised (e : PyExn)
deriving Repr, DecidableEq

/-- Embeds `autoretry_for=(Exception,)` on `process_support_request`
(tasks.py line 35): every Python exception triggers a Celery retry. -/
def process_autoretry_for (_e : PyExn) : Bool := true

/-- Embeds `max_retries` of `process_support_request` (tasks.py line 35). -/
def process_max_retries : Nat := 3

/-- Embeds `process_support_request` (tasks.py lines 35–98), as events plus outcome.

* Absent row (lines 44–46): `ValueError` is raised; the handler at lines
  88–96 then finds the name `request` in `locals()` (bound to `None`) and
  `request.processing_status = 'failed'` raises `AttributeError`, which is
  what propagates; nothing was committed.
* Idempotency guard (lines 49–51): bare `return`, no commit, no enqueue.
* Otherwise: commit the `processing` transition (lines 54–55), classify
  (lines 58–66; an escaping classifier exception would hit the handler:
  status `failed` committed, exception re-raised), commit the completed row
  with the derived fields (lines 69–74), and for `cancellation_request`
  enqueue the notification task (lines 79–80). If `.delay` raises
  (broker failure), the handler commits status `failed` over the
  already-committed completed row and re-raises. -/
def process_support_request (env : ProcEnv) (db : List SupportRequest) (request_id : Nat) :
    List Event × ProcOutcome :=
  match dbFirst db request_id with
  | none => ([], .raised .attributeError)
  | some request =>
      if request.processing_status == "completed" then
        ([], .success none)
      else
        let r1 : SupportRequest :=
          { request with processing_status := "processing", updated_at := env.now }
        let db1 := dbSave db r1
        match classify_request env.remote env.model env.timestamp
            request.subject request.description with
        | .error e =>
            let rf := { r1 with processing_status := "failed", updated_at := env.now }
            ([.commit db1, .commit (dbSave db1 rf)], .raised e)
        | .ok ai =>
            let r2 : SupportRequest :=
              { r1 with category := some ai.category, ai_summary := some ai.summary,
                        processed_at := some env.now, processing_status := "completed",
                        updated_at := env.now }
            let db2 := dbSave db1 r2
            if ai.category == "cancellation_request" then
              if env.enqueueFails then
                let rf := { r2 with processing_status := "failed", updated_at := env.now }
                ([.commit db1, .commit db2, .commit (dbSave db2 rf)], .raised .brokerError)
              else
                ([.commit db1, .commit db2, .enqueueNotification request_id],
                 .success (some (request_id, ai.category, ai.summary)))
            else
              ([.commit db1, .commit db2],
               .success (some (request_id, ai.category, ai.summary)))

/-! ### Notification Dispatcher — `app/services/teams_notifier.py` -/

/-- Environment of one notification delivery: whether `TEAMS_WEBHOOK_URL`
is configured (set and not the placeholder), the outcome of the webhook
POST, the `datetime.utcnow().timestamp()` string used in the delivery id,
and the clock. -/
structure NotifEnv where
  webhookConfigured : Bool
  postOutcome : HttpOutcome Nat
  nowTs : String
  now : Nat
deriving Repr, DecidableEq

/-- Embeds `TeamsNotifier.send_cancellation_alert` (lines 21–98): the delivery id
(`none` on unconfigured webhook, raised POST, or non-200 status) paired
with the number of webhook POSTs performed (0 or 1). The message-card
construction (lines 29–79) is pure and affects neither component. -/
def send_cancellation_alert (env : NotifEnv) (r : SupportRequest) : Option String × Nat :=
  if !env.webhookConfigured then
    (none, 0)
  else
    match env.postOutcome with
    | .exn _ => (none, 1)
    | .ok status =>
        if status == 200 then
          (some ("teams_notification_" ++ toString r.id ++ "_" ++ env.nowTs), 1)
        else
          (none, 1)

/-- Outcome of one `send_teams_notification` delivery: the Python return
value (`none` for the guard's bare `return`, or the
`{request_id, notification_id}` dict), or a raised exception. -/
inductive NotifOutcome where
  | success (ret : Option (Nat × Option String))
  | raised (e : PyExn)
deriving Repr, DecidableEq

/-- Embeds `autoretry_for=(Exception,)` on `send_teams_notification`
(tasks.py line 100). -/
def notif_autoretry_for (_e : PyExn) : Bool := true

/-- Embeds `max_retries` of `send_teams_notification` (tasks.py line 100). -/
def notif_max_retries : Nat := 3

/-- Embeds `send_teams_notification` (tasks.py lines 100–140): final store,
number of webhook POSTs performed, and outcome.

* Absent row (lines 108–110): `ValueError` raised; the handler (136–138)
  only logs and re-raises.
* Guard (lines 113–115): if `notification_sent == "true"`, bare `return`.
* Otherwise dispatch (lines 118–126) and then — whatever
  `send_cancellation_alert` returned, `None` included — set
  `notification_sent = "true"` and commit (lines 129–130). -/
def send_teams_notification (env : NotifEnv) (db : List SupportRequest) (request_id : Nat) :
    List SupportRequest × Nat × NotifOutcome :=
  match dbFirst db request_id with
  | none =>
      (db, 0, .raised (.valueError ("Request " ++ toString request_id ++ " not found")))
  | some request =>
      if request.notification_sent == "true" then
        (db, 0, .success none)
      else
        let sent := send_cancellation_alert env request
        let r2 := { request with notification_sent := "true", updated_at := env.now }
        (dbSave db r2, sent.2, .success (some (request_id, sent.1)))

/-! ### Concrete fixtures used by witnesses and counterexamples -/

/-- A freshly created request row, as the ingestion boundary creates it
(status `pending`, `notification_sent` "false", empty derived fields). -/
def mkRequest (rid : Nat) (subject description : String) : SupportRequest :=
  { id := rid
    customer_name := "Alice"
    email := "alice@example.com"
    subject := subject
    description := description
    category := none
    ai_summary := none
    processing_status := "pending"
    notification_sent := "false"
    created_at := 0
    updated_at := 0
    processed_at := none }

/-- Remote service unreachable: both calls raise. -/
def envDown : RemoteEnv :=
  { healthOutcome := .exn .httpException, genOutcome := .exn .httpException }

/-- A cancellation-flavoured fresh request. -/
def reqC : SupportRequest := mkRequest 1 "Please cancel my account" "I want a refund"

/-- Processing environment: remote down, healthy broker, clock at 100. -/
def envOkC : ProcEnv :=
  { remote := envDown, enqueueFails := false, now := 100,
    model := "llama3.1:8b", timestamp := "2024-01-01T00:00:00" }

/-- Processing environment: remote down, the notification enqueue raises. -/
def envEnqFail : ProcEnv := { envOkC with enqueueFails := true }

/-- Re-delivery environment: same as `envOkC` but the clock moved to 200. -/
def envRetry : ProcEnv := { envOkC with now := 200 }

/-- Store after the enqueue-failure delivery on `[reqC]`. -/
def cexDb1 : List SupportRequest :=
  finalDb [reqC] (process_support_request envEnqFail [reqC] 1).1

/-- Store after the subsequent re-delivery of the processing task. -/
def cexDb2 : List SupportRequest :=
  finalDb cexDb1 (process_support_request envRetry cexDb1 1).1

/-- A completed cancellation request with the notification not yet sent:
`reqC` exactly as the pipeline persists it at clock 100. -/
def reqDone : SupportRequest :=
  { reqC with processing_status := "completed",
              category := some "cancellation_request",
              ai_summary := some "Fallback classification: cancellation_request (keyword: cancel)",
              processed_at := some 100, updated_at := 100 }

/-- The row as committed by the `processing` transition
(tasks.py lines 54–55). -/
def processingRow (request : SupportRequest) (now : Nat) : SupportRequest :=
  { request with processing_status := "processing", updated_at := now }

/-- The row as committed on classification success (tasks.py lines 69–74):
category, summary and `processed_at` set together with the `completed`
status. There is no confidence field to set. -/
def completedRow (request : SupportRequest) (ai : ClassResult) (now : Nat) : SupportRequest :=
  { request with category := some ai.category, ai_summary := some ai.summary,
                 processed_at := some now, processing_status := "completed",
                 updated_at := now }

/-- Data-model invariant claimed by the spec:
`processed_at` is non-null iff `processing_status = completed`. -/
def ProcessedIffCompleted (db : List SupportRequest) : Prop :=
  ∀ r ∈ db, (r.processed_at ≠ none ↔ r.processing_status = "completed")

instance (db : List SupportRequest) : Decidable (ProcessedIffCompleted db) :=
  List.decidableBAll _ db

/-- A sequence of processing-task deliveries applied to a store. -/
def runSeq (db : List SupportRequest) (steps : List (ProcEnv × Nat)) : List SupportRequest :=
  steps.foldl (fun acc s => finalDb acc (process_support_request s.1 acc s.2).1) db

/-- A parsed remote result with a valid category and low confidence. -/
def rawLow : RawResult :=
  { category := some "billing", summary := some "Customer was charged twice",
    confidence := some (.num (mkRat 2 10)) }

/-- Same parsed remote result, but with high confidence. -/
def rawHigh : RawResult := { rawLow with confidence := some (.num (mkRat 9 10)) }

/-- Healthy remote service answering with the `rawLow` parsed body. -/
def remoteLow : RemoteEnv :=
  { healthOutcome := .ok 200, genOutcome := .ok { status := 200, body := .json (some rawLow) } }

/-- Healthy remote service answering with the `rawHigh` parsed body. -/
def remoteHigh : RemoteEnv :=
  { remoteLow with genOutcome := .ok { status := 200, body := .json (some rawHigh) } }

/-- Processing environment over `remoteLow`. -/
def envLow : ProcEnv := { envOkC with remote := remoteLow }

/-- Processing environment over `remoteHigh`. -/
def envHigh : ProcEnv := { envOkC with remote := remoteHigh }

/-- A billing-flavoured fresh request. -/
def reqB : SupportRequest := mkRequest 1 "Billing question" "I was charged twice"

/-- The classifier result the remote path produces from `rawLow`. -/
def aiB : ClassResult :=
  validate_classification_result "llama3.1:8b" "2024-01-01T00:00:00" rawLow

/-- A parsed dict exercising all three validation clamps at once: invalid
category, 600-character summary, confidence 1.5. -/
def rawBad : RawResult :=
  { category := some "not_a_real_category",
    summary := some (String.mk (List.replicate 600 'a')),
    confidence := some (.num (mkRat 15 10)) }

/-- A request whose notification was already sent. -/
def reqSent : SupportRequest := { reqDone with notification_sent := "true" }

/-- Notification environment with the webhook unconfigured. -/
def envNoWebhook : NotifEnv :=
  { webhookConfigured := false, postOutcome := .exn .httpException,
    nowTs := "1700000000.0", now := 150 }

/-! ### Helper lemmas about the store embedding -/

lemma mem_dbSave {db : List SupportRequest} {r x : SupportRequest}
    (hx : x ∈ dbSave db r) : x = r ∨ x ∈ db := by
  rcases List.mem_map.mp hx with ⟨a, ha, hax⟩
  split at hax
  · exact Or.inl hax.symm
  · exact Or.inr (hax ▸ ha)

lemma mem_dbSave_of_ne {db : List SupportRequest} {r x : SupportRequest}
    (hx : x ∈ db) (hne : x.id ≠ r.id) : x ∈ dbSave db r := by
  unfold dbSave
  refine List.mem_map.mpr ⟨x, hx, ?_⟩
  simp [hne]

lemma dbSave_map_id (db : List SupportRequest) (r : SupportRequest) :
    (dbSave db r).map SupportRequest.id = db.map SupportRequest.id := by
  unfold dbSave
  rw [List.map_map]
  refine List.map_congr_left fun a _ => ?_
  by_cases h : a.id = r.id
  · simp [Function.comp, h]
  · simp [Function.comp, h]

lemma dbFirst_dbSave (db : List SupportRequest) (r : SupportRequest) (rid : Nat)
    (hr : r.id = rid) :
    dbFirst (dbSave db r) rid = (dbFirst db rid).map fun _ => r := by
  induction db with
  | nil => rfl
  | cons a tl ih =>
      show dbFirst ((if a.id == r.id then r else a) :: dbSave tl r) rid = _
      by_cases ha : a.id = rid
      · have h1 : (a.id == r.id) = true := by rw [hr]; exact beq_iff_eq.mpr ha
        have h2 : (a.id == rid) = true := beq_iff_eq.mpr ha
        have h3 : (r.id == rid) = true := beq_iff_eq.mpr hr
        rw [h1]
        unfold dbFirst
        rw [if_pos rfl, List.find?_cons, List.find?_cons, h2, h3]
        rfl
      · have h1 : (a.id == r.id) = false := by
          rw [hr]; exact beq_eq_false_iff_ne.mpr ha
        have h2 : (a.id == rid) = false := beq_eq_false_iff_ne.mpr ha
        rw [h1]
        unfold dbFirst
        rw [if_neg (by simp), List.find?_cons, List.find?_cons, h2]
        exact ih

lemma dbFirst_mem {db : List SupportRequest} {rid : Nat} {r : SupportRequest}
    (h : dbFirst db rid = some r) : r ∈ db ∧ r.id = rid := by
  unfold dbFirst at h
  have hp := List.find?_some h
  exact ⟨List.mem_of_find?_eq_some h, beq_iff_eq.mp hp⟩

/-! ### Helper lemmas about the Classification Engine -/

lemma classify_request_ok (env : RemoteEnv) (model ts subject description : String) :
    ∃ r, classify_request env model ts subject description = .ok r := by
  unfold classify_request
  split
  · exact ⟨_, rfl⟩
  · split
    · exact ⟨_, rfl⟩
    · exact ⟨_, rfl⟩

lemma classify_request_fallback (env : RemoteEnv) (model ts subject description : String)
    (h : remote_failure env = true) :
    classify_request env model ts subject description =
      .ok (fallback_classify subject description) := by
  obtain ⟨hOut, gOut⟩ := env
  unfold remote_failure check_ollama_health at h
  unfold classify_request classify_try_block check_ollama_health
  cases hOut with
  | exn e => simp
  | ok status =>
      by_cases hs : status = 200
      · subst hs
        simp only [beq_self_eq_true, Bool.not_true, Bool.false_or] at h ⊢
        cases gOut with
        | exn e => simp
        | ok resp =>
            simp only [] at h ⊢
            cases hb : resp.body with
            | notJson =>
                by_cases hr2 : resp.status = 200
                · simp [hb, hr2]
                · simp [hb, hr2]
            | json extracted =>
                rw [hb] at h
                by_cases hr2 : resp.status = 200
                · exfalso
                  have : (resp.status != 200) = false := by simp [hr2]
                  rw [this] at h
                  simp at h
                · have : (resp.status != 200) = true := by simp [hr2]
                  simp [this]
      · have : (status == 200) = false := beq_eq_false_iff_ne.mpr hs
        simp [this]

/-! ### Helper lemmas about the Processing Pipeline -/

lemma process_run_events (env : ProcEnv) (db : List SupportRequest) (rid : Nat)
    (henq : env.enqueueFails = false) :
    ((process_support_request env db rid).1 = [] ∧
      (dbFirst db rid = none ∨
       ∃ request, dbFirst db rid = some request ∧ request.processing_status = "completed")) ∨
    ∃ request ai,
      dbFirst db rid = some request ∧ request.processing_status ≠ "completed" ∧
      classify_request env.remote env.model env.timestamp request.subject request.description
        = .ok ai ∧
      ((ai.category = "cancellation_request" ∧
        (process_support_request env db rid).1 =
          [.commit (dbSave db (processingRow request env.now)),
           .commit (dbSave (dbSave db (processingRow request env.now))
                      (completedRow request ai env.now)),
           .enqueueNotification rid]) ∨
       (ai.category ≠ "cancellation_request" ∧
        (process_support_request env db rid).1 =
          [.commit (dbSave db (processingRow request env.now)),
           .commit (dbSave (dbSave db (processingRow request env.now))
                      (completedRow request ai env.now))])) := by
  cases hfind : dbFirst db rid with
  | none =>
      left
      exact ⟨by simp [process_support_request, hfind], Or.inl rfl⟩
  | some request =>
      by_cases hdone : request.processing_status = "completed"
      · left
        have hb : (request.processing_status == "completed") = true := beq_iff_eq.mpr hdone
        exact ⟨by simp [process_support_request, hfind, hb], Or.inr ⟨request, rfl, hdone⟩⟩
      · right
        obtain ⟨ai, hai⟩ := classify_request_ok env.remote env.model env.timestamp
          request.subject request.description
        refine ⟨request, ai, rfl, hdone, hai, ?_⟩
        have hb : (request.processing_status == "completed") = false :=
          beq_eq_false_iff_ne.mpr hdone
        by_cases hcat : ai.category = "cancellation_request"
        · left
          have hcb : (ai.category == "cancellation_request") = true := beq_iff_eq.mpr hcat
          refine ⟨hcat, ?_⟩
          simp [process_support_request, hfind, hb, hai, hcb, henq, processingRow, completedRow]
        · right
          have hcb : (ai.category == "cancellation_request") = false :=
            beq_eq_false_iff_ne.mpr hcat
          refine ⟨hcat, ?_⟩
          simp [process_support_request, hfind, hb, hai, hcb, processingRow, completedRow]

lemma finalDb_nil (db : List SupportRequest) : finalDb db [] = db := rfl

lemma process_events_of_ok (env : ProcEnv) (db : List SupportRequest) (rid : Nat)
    (request : SupportRequest) (ai : ClassResult)
    (hfind : dbFirst db rid = some request)
    (hdone : request.processing_status ≠ "completed")
    (hai : classify_request env.remote env.model env.timestamp request.subject request.description
      = .ok ai) :
    ∃ tail, (process_support_request env db rid).1 =
      .commit (dbSave db (processingRow request env.now)) ::
      .commit (dbSave (dbSave db (processingRow request env.now))
                 (completedRow request ai env.now)) :: tail := by
  have hb : (request.processing_status == "completed") = false := beq_eq_false_iff_ne.mpr hdone
  by_cases hcat : ai.category = "cancellation_request"
  · have hcb : (ai.category == "cancellation_request") = true := beq_iff_eq.mpr hcat
    cases hq : env.enqueueFails
    · refine ⟨[.enqueueNotification rid], ?_⟩
      simp [process_support_request, hfind, hb, hai, hcb, hq, processingRow, completedRow]
    · refine ⟨[.commit (dbSave (dbSave (dbSave db (processingRow request env.now))
          (completedRow request ai env.now))
          { completedRow request ai env.now with
            processing_status := "failed", updated_at := env.now })], ?_⟩
      simp [process_support_request, hfind, hb, hai, hcb, hq, processingRow, completedRow]
  · have hcb : (ai.category == "cancellation_request") = false := beq_eq_false_iff_ne.mpr hcat
    refine ⟨[], ?_⟩
    simp [process_support_request, hfind, hb, hai, hcb, processingRow, completedRow]

lemma process_final_db (env : ProcEnv) (db : List SupportRequest) (rid : Nat)
    (henq : env.enqueueFails = false) :
    finalDb db (process_support_request env db rid).1 = db ∨
    ∃ request ai,
      dbFirst db rid = some request ∧ request.processing_status ≠ "completed" ∧
      classify_request env.remote env.model env.timestamp request.subject request.description
        = .ok ai ∧
      finalDb db (process_support_request env db rid).1 =
        dbSave (dbSave db (processingRow request env.now)) (completedRow request ai env.now) := by
  rcases process_run_events env db rid henq with ⟨hev, _⟩ | ⟨request, ai, hfind, hdone, hai, hbr⟩
  · left; rw [hev]; rfl
  · right
    refine ⟨request, ai, hfind, hdone, hai, ?_⟩
    rcases hbr with ⟨_, hev⟩ | ⟨_, hev⟩ <;> rw [hev] <;> rfl

lemma process_step_sound (env : ProcEnv) (db : List SupportRequest) (rid : Nat)
    (henq : env.enqueueFails = false)
    (hinv : ProcessedIffCompleted db)
    (hnd : (db.map SupportRequest.id).Nodup) :
    ProcessedIffCompleted (finalDb db (process_support_request env db rid).1) ∧
    (finalDb db (process_support_request env db rid).1).map SupportRequest.id
      = db.map SupportRequest.id ∧
    ∀ x ∈ db, x.processing_status = "completed" →
      x ∈ finalDb db (process_support_request env db rid).1 := by
  rcases process_final_db env db rid henq with heq | ⟨request, ai, hfind, hdone, hai, heq⟩
  · rw [heq]; exact ⟨hinv, rfl, fun x hx _ => hx⟩
  · obtain ⟨hreqmem, hreqid⟩ := dbFirst_mem hfind
    have hreqpa : request.processed_at = none := by
      by_contra hne
      exact hdone ((hinv request hreqmem).mp hne)
    rw [heq]
    refine ⟨?_, ?_, ?_⟩
    · intro x hx
      rcases mem_dbSave hx with rfl | hx1
      · simp [completedRow]
      · rcases mem_dbSave hx1 with rfl | hx0
        · simp [processingRow, hreqpa]
        · exact hinv x hx0
    · rw [dbSave_map_id, dbSave_map_id]
    · intro x hx hxc
      by_cases hxid : x.id = rid
      · exfalso
        have hxr : x = request :=
          List.inj_on_of_nodup_map hnd hx hreqmem (by rw [hxid, hreqid])
        rw [hxr] at hxc
        exact hdone hxc
      · have hne1 : x.id ≠ (processingRow request env.now).id := by
          simpa [processingRow, hreqid] using hxid
        have hne2 : x.id ≠ (completedRow request ai env.now).id := by
          simpa [completedRow, hreqid] using hxid
        exact mem_dbSave_of_ne (mem_dbSave_of_ne hx hne1) hne2

/-! ### Claims -/

/-- Claim C1. The notification task marks `notification_sent = "true"` even
though the dispatcher reported failure by returning `None` (webhook
unconfigured, zero POSTs performed, delivery id `none`) — contradicting the
claim that `notification_sent` becomes true only after a confirmed 2xx
delivery. -/
theorem notification_sent_set_despite_failed_delivery :
    send_cancellation_alert envNoWebhook reqDone = (none, 0) ∧
    send_teams_notification envNoWebhook [reqDone] 1 =
      ([{ reqDone with notification_sent := "true", updated_at := 150 }], 0,
       .success (some (1, none))) := by decide

/-- Claim C2, counterexample. With request 7 absent from the store the
delivery raises (an `AttributeError`, from the failure handler assigning to
the absent row), and the raised exception is matched by
`autoretry_for=(Exception,)` — the queue retry mechanism is triggered,
contrary to the claimed non-retriable NotFound failure. -/
theorem missing_request_retried_cex :
    (process_support_request envOkC [] 7).2 = .raised .attributeError ∧
    process_autoretry_for .attributeError = true := by decide

/-- Claim C2, amended. For every request id absent from the store the
handler raises — the NotFound `ValueError` is superseded by an
`AttributeError` from the failure-handling block — the store is left
unchanged, and the error does trigger the queue's retry mechanism, since
the task auto-retries every exception. -/
theorem missing_request_raises_retriable (env : ProcEnv) (db : List SupportRequest) (rid : Nat)
    (habs : dbFirst db rid = none) :
    process_support_request env db rid = ([], .raised .attributeError) ∧
    finalDb db (process_support_request env db rid).1 = db ∧
    process_autoretry_for .attributeError = true := by
  have h1 : process_support_request env db rid = ([], .raised .attributeError) := by
    simp [process_support_request, habs]
  exact ⟨h1, by rw [h1]; rfl, rfl⟩

/-- Claim C2, witness. -/
theorem missing_request_raises_retriable_witness :
    process_support_request envOkC [] 7 = ([], .raised .attributeError) ∧
    finalDb [] (process_support_request envOkC [] 7).1 = [] ∧
    process_autoretry_for .attributeError = true :=
  missing_request_raises_retriable envOkC [] 7 (by decide)

/-- Claim C3, counterexample. After a delivery in which the notification
enqueue raises (broker failure after the completion commit), the committed
row has `processing_status = "failed"` with `processed_at = some 100`,
refuting "non-null exactly when completed"; the retry re-delivery then
overwrites `processed_at` to `some 200`, refuting "never changes once
set". -/
theorem processed_at_invariant_cex :
    (∃ r1 ∈ cexDb1, r1.processing_status = "failed" ∧ r1.processed_at = some 100) ∧
    (∃ r2 ∈ cexDb2, r2.processing_status = "completed" ∧ r2.processed_at = some 200) := by
  decide

/-- Claim C3, amended. Provided no delivery fails after its completion
commit (the notification enqueue does not raise), every sequence of
processing deliveries preserves the invariant "`processed_at` is non-null
iff `processing_status = completed`" — so `processed_at` stays null until
the completing commit — and every already-completed row, its
`processed_at` included, survives every later delivery unchanged. -/
theorem processed_at_invariant_amended (steps : List (ProcEnv × Nat)) (db : List SupportRequest)
    (henq : ∀ s ∈ steps, s.1.enqueueFails = false)
    (hinv : ProcessedIffCompleted db)
    (hnd : (db.map SupportRequest.id).Nodup) :
    ProcessedIffCompleted (runSeq db steps) ∧
    ∀ x ∈ db, x.processing_status = "completed" → x ∈ runSeq db steps := by
  induction steps generalizing db with
  | nil => exact ⟨hinv, fun x hx _ => hx⟩
  | cons s tl ih =>
      obtain ⟨h1, h2, h3⟩ :=
        process_step_sound s.1 db s.2 (henq s (List.mem_cons_self s tl)) hinv hnd
      have hnd2 :
          ((finalDb db (process_support_request s.1 db s.2).1).map SupportRequest.id).Nodup := by
        rw [h2]; exact hnd
      obtain ⟨g1, g2⟩ := ih _ (fun t ht => henq t (List.mem_cons_of_mem s ht)) h1 hnd2
      exact ⟨g1, fun x hx hxc => g2 x (h3 x hx hxc) hxc⟩

/-- Claim C3, witness. -/
theorem processed_at_invariant_amended_witness :
    ProcessedIffCompleted (runSeq [reqC] [(envOkC, 1)]) ∧
    ∀ x ∈ [reqC], x.processing_status = "completed" → x ∈ runSeq [reqC] [(envOkC, 1)] :=
  processed_at_invariant_amended [(envOkC, 1)] [reqC] (by decide) (by decide) (by decide)

/-- Claim C4, counterexample. Two classifier results that differ
(confidence 0.2 vs 0.9) lead to identical runs and identical stores —
`confidence` is not among the fields the handler writes, and the stored
model has no confidence column; the claim that confidence is set on the
stored request is false. -/
theorem confidence_not_persisted_cex :
    classify_request remoteLow "llama3.1:8b" "2024-01-01T00:00:00" reqB.subject reqB.description ≠
      classify_request remoteHigh "llama3.1:8b" "2024-01-01T00:00:00"
        reqB.subject reqB.description ∧
    process_support_request envLow [reqB] 1 = process_support_request envHigh [reqB] 1 := by
  decide

/-- Claim C4, amended. On every successful classification the handler
persists category, ai_summary, processed_at = now and status = completed
together, in one commit; the only earlier commit is the pure status
transition to `processing`, so no derived field is ever written partially.
Confidence is computed by the classifier but not persisted. -/
theorem success_persists_derived_fields (env : ProcEnv) (db : List SupportRequest) (rid : Nat)
    (request : SupportRequest) (ai : ClassResult)
    (hfind : dbFirst db rid = some request)
    (hdone : request.processing_status ≠ "completed")
    (hai : classify_request env.remote env.model env.timestamp request.subject request.description
      = .ok ai) :
    (process_support_request env db rid).1.get? 0 =
      some (.commit (dbSave db (processingRow request env.now))) ∧
    ∃ d, (process_support_request env db rid).1.get? 1 = some (.commit d) ∧
      dbFirst d rid = some (completedRow request ai env.now) ∧
      (completedRow request ai env.now).category = some ai.category ∧
      (completedRow request ai env.now).ai_summary = some ai.summary ∧
      (completedRow request ai env.now).processed_at = some env.now ∧
      (completedRow request ai env.now).processing_status = "completed" := by
  obtain ⟨tail, hev⟩ := process_events_of_ok env db rid request ai hfind hdone hai
  have hid : request.id = rid := (dbFirst_mem hfind).2
  have hsome1 : dbFirst (dbSave db (processingRow request env.now)) rid =
      some (processingRow request env.now) := by
    rw [dbFirst_dbSave db _ rid (by simpa [processingRow] using hid), hfind]; rfl
  have hsome2 : dbFirst (dbSave (dbSave db (processingRow request env.now))
      (completedRow request ai env.now)) rid = some (completedRow request ai env.now) := by
    rw [dbFirst_dbSave _ _ rid (by simpa [completedRow] using hid), hsome1]; rfl
  rw [hev]
  exact ⟨rfl, _, rfl, hsome2, rfl, rfl, rfl, rfl⟩

set_option maxRecDepth 10000 in
/-- Claim C4, witness. -/
theorem success_persists_derived_fields_witness :
    (process_support_request envLow [reqB] 1).1.get? 0 =
      some (.commit (dbSave [reqB] (processingRow reqB 100))) ∧
    ∃ d, (process_support_request envLow [reqB] 1).1.get? 1 = some (.commit d) ∧
      dbFirst d 1 = some (completedRow reqB aiB 100) ∧
      (completedRow reqB aiB 100).category = some aiB.category ∧
      (completedRow reqB aiB 100).ai_summary = some aiB.summary ∧
      (completedRow reqB aiB 100).processed_at = some 100 ∧
      (completedRow reqB aiB 100).processing_status = "completed" :=
  success_persists_derived_fields envLow [reqB] 1 reqB aiB (by decide) (by decide) (by decide)

/-- Claim C5. If the stored request is already completed, any delivery of
the processing task returns success immediately, commits nothing, enqueues
nothing — and so does a second delivery on the unchanged store. -/
theorem completed_guard_idempotent (env env2 : ProcEnv) (db : List SupportRequest) (rid : Nat)
    (request : SupportRequest)
    (hfind : dbFirst db rid = some request)
    (hdone : request.processing_status = "completed") :
    process_support_request env db rid = ([], .success none) ∧
    finalDb db (process_support_request env db rid).1 = db ∧
    enqueuedIds (process_support_request env db rid).1 = [] ∧
    process_support_request env2 (finalDb db (process_support_request env db rid).1) rid
      = ([], .success none) := by
  have hb : (request.processing_status == "completed") = true := beq_iff_eq.mpr hdone
  have h1 : process_support_request env db rid = ([], .success none) := by
    simp [process_support_request, hfind, hb]
  have h2 : process_support_request env2 db rid = ([], .success none) := by
    simp [process_support_request, hfind, hb]
  exact ⟨h1, by rw [h1]; rfl, by rw [h1]; rfl, by rw [h1]; exact h2⟩

/-- Claim C5, witness. -/
theorem completed_guard_idempotent_witness :
    process_support_request envOkC [reqDone] 1 = ([], .success none) ∧
    finalDb [reqDone] (process_support_request envOkC [reqDone] 1).1 = [reqDone] ∧
    enqueuedIds (process_support_request envOkC [reqDone] 1).1 = [] ∧
    process_support_request envRetry
      (finalDb [reqDone] (process_support_request envOkC [reqDone] 1).1) 1
      = ([], .success none) :=
  completed_guard_idempotent envOkC envRetry [reqDone] 1 reqDone (by decide) (by decide)

/-- Claim C6. The classification engine never raises to its caller — for
every remote behaviour it returns a result object — and every remote
failure (failed health probe, raised POST / timeout, non-200 status,
non-JSON body) is routed to the fallback path. -/
theorem classify_never_raises_and_falls_back (env : RemoteEnv)
    (model ts subject description : String) :
    (∃ r, classify_request env model ts subject description = .ok r) ∧
    (remote_failure env = true →
      classify_request env model ts subject description =
        .ok (fallback_classify subject description)) :=
  ⟨classify_request_ok env model ts subject description,
   classify_request_fallback env model ts subject description⟩

/-- Claim C6, witness. -/
theorem classify_never_raises_and_falls_back_witness :
    classify_request envDown "llama3.1:8b" "ts" "Help" "My app crashed" =
      .ok (fallback_classify "Help" "My app crashed") :=
  (classify_never_raises_and_falls_back envDown "llama3.1:8b" "ts" "Help" "My app crashed").2
    (by decide)

/-- Claim C7. With the remote service unreachable, the fallback classifies
subject "Cancel my subscription", description "stop billing me" as
cancellation_request with confidence 0.6 and method fallback, via the first
matching keyword of the ordered table ("cancel"), although keywords of
other categories ("stop", "billing") also occur in the text. -/
theorem fallback_first_keyword_wins :
    classify_request envDown "llama3.1:8b" "ts" "Cancel my subscription" "stop billing me" =
      .ok { category := "cancellation_request",
            summary := "Fallback classification: cancellation_request (keyword: cancel)",
            confidence := mkRat 6 10, method := "fallback",
            model := none, timestamp := none } ∧
    strIn "stop" (pyLower ("Cancel my subscription" ++ " " ++ "stop billing me")) = true ∧
    strIn "billing" (pyLower ("Cancel my subscription" ++ " " ++ "stop billing me")) = true := by
  decide

/-- Claim C8, counterexample. The validation step tags results with
method = "ollama_ai", not "remote_ai" as the claim states. -/
theorem validate_method_cex :
    (validate_classification_result "llama3.1:8b" "2024-01-01T00:00:00" rawBad).method
      = "ollama_ai" ∧
    (validate_classification_result "llama3.1:8b" "2024-01-01T00:00:00" rawBad).method
      ≠ "remote_ai" := by decide

/-- Claim C8, amended. For every parsed result dict, validation coerces a
category outside the valid set to general_inquiry, truncates a summary
longer than 500 characters to 497 characters plus a 3-character ellipsis
(500 total), coerces a non-numeric or out-of-range confidence to 0.7, and
tags the result with method = "ollama_ai" together with the model
identifier and a timestamp. -/
theorem validate_clamps_amended (model ts : String) (result : RawResult) :
    (∀ c, result.category = some c → c ∉ valid_categories →
      (validate_classification_result model ts result).category = "general_inquiry") ∧
    (∀ s, result.summary = some s → 500 < s.length →
      (validate_classification_result model ts result).summary = strTake s 497 ++ "..." ∧
      (validate_classification_result model ts result).summary.length = 500) ∧
    (∀ q, result.confidence = some (.num q) → (q < mkRat 0 1 ∨ mkRat 1 1 < q) →
      (validate_classification_result model ts result).confidence = mkRat 7 10) ∧
    (result.confidence = some .nonNum →
      (validate_classification_result model ts result).confidence = mkRat 7 10) ∧
    (validate_classification_result model ts result).method = "ollama_ai" ∧
    (validate_classification_result model ts result).model = some model ∧
    (validate_classification_result model ts result).timestamp = some ts := by
  refine ⟨?_, ?_, ?_, ?_, rfl, rfl, rfl⟩
  · intro c hc hval
    simp [validate_classification_result, hc, hval]
  · intro s hs hlen
    have hproj : (validate_classification_result model ts result).summary
        = strTake s 497 ++ "..." := by
      simp [validate_classification_result, hs, hlen]
    refine ⟨hproj, ?_⟩
    rw [hproj, String.length_append]
    have hlen2 : 500 < s.data.length := hlen
    have htk : (strTake s 497).length = 497 := by
      show (s.data.take 497).length = 497
      rw [List.length_take]
      omega
    rw [htk]
    decide
  · intro q hq hout
    simp only [validate_classification_result, hq, Option.getD_some]
    rw [if_pos hout]
  · intro hq
    simp [validate_classification_result, hq]

set_option maxRecDepth 10000 in
/-- Claim C8, witness. -/
theorem validate_clamps_amended_witness :
    (validate_classification_result "llama3.1:8b" "t0" rawBad).category = "general_inquiry" ∧
    (validate_classification_result "llama3.1:8b" "t0" rawBad).summary.length = 500 ∧
    (validate_classification_result "llama3.1:8b" "t0" rawBad).confidence = mkRat 7 10 :=
  ⟨(validate_clamps_amended "llama3.1:8b" "t0" rawBad).1 "not_a_real_category" rfl (by decide),
   ((validate_clamps_amended "llama3.1:8b" "t0" rawBad).2.1
      (String.mk (List.replicate 600 'a')) rfl (by decide)).2,
   (validate_clamps_amended "llama3.1:8b" "t0" rawBad).2.2.1 (mkRat 15 10) rfl (by decide)⟩

/-- Claim C9. With a working broker, a delivery of the processing task
enqueues the notification task iff the request is loaded, not yet
completed, and its classification result has category cancellation_request;
and every enqueue event is preceded in the run by a commit whose store
already holds the completed row with its derived fields. -/
theorem notification_enqueue_iff_after_persist (env : ProcEnv) (db : List SupportRequest)
    (rid : Nat) (henq : env.enqueueFails = false) :
    (Event.enqueueNotification rid ∈ (process_support_request env db rid).1 ↔
      ∃ request ai, dbFirst db rid = some request ∧
        request.processing_status ≠ "completed" ∧
        classify_request env.remote env.model env.timestamp request.subject request.description
          = .ok ai ∧ ai.category = "cancellation_request") ∧
    ∀ k, (process_support_request env db rid).1.get? k = some (.enqueueNotification rid) →
      ∃ j d, j < k ∧ (process_support_request env db rid).1.get? j = some (.commit d) ∧
        ∃ r, dbFirst d rid = some r ∧ r.processing_status = "completed" ∧
          r.processed_at = some env.now ∧ r.category ≠ none ∧ r.ai_summary ≠ none := by
  rcases process_run_events env db rid henq with
    ⟨hev, hwhy⟩ | ⟨request, ai, hfind, hdone, hai, hbr⟩
  · rw [hev]
    constructor
    · constructor
      · intro h; cases h
      · rintro ⟨request, ai, hfind, hdone, hai, hcat⟩
        rcases hwhy with habs | ⟨request2, hfind2, hdone2⟩
        · rw [habs] at hfind; cases hfind
        · rw [hfind2] at hfind
          cases hfind
          exact absurd hdone2 hdone
    · intro k hk
      simp at hk
  · rcases hbr with ⟨hcat, hev⟩ | ⟨hcat, hev⟩
    · have hid : request.id = rid := (dbFirst_mem hfind).2
      have hsome1 : dbFirst (dbSave db (processingRow request env.now)) rid =
          some (processingRow request env.now) := by
        rw [dbFirst_dbSave db _ rid (by simpa [processingRow] using hid), hfind]; rfl
      have hsome2 : dbFirst (dbSave (dbSave db (processingRow request env.now))
          (completedRow request ai env.now)) rid = some (completedRow request ai env.now) := by
        rw [dbFirst_dbSave _ _ rid (by simpa [completedRow] using hid), hsome1]; rfl
      constructor
      · rw [hev]
        exact iff_of_true (by simp) ⟨request, ai, hfind, hdone, hai, hcat⟩
      · intro k hk
        rw [hev] at hk
        match k, hk with
        | 0, hk => simp at hk
        | 1, hk => simp at hk
        | 2, _ =>
            refine ⟨1, dbSave (dbSave db (processingRow request env.now))
              (completedRow request ai env.now), by omega, by rw [hev]; rfl, ?_⟩
            exact ⟨completedRow request ai env.now, hsome2, rfl, rfl, by simp [completedRow],
              by simp [completedRow]⟩
        | (n + 3), hk => simp [List.get?] at hk
    · constructor
      · rw [hev]
        refine iff_of_false (by simp) ?_
        rintro ⟨request2, ai2, hfind2, hdone2, hai2, hcat2⟩
        rw [hfind] at hfind2
        cases hfind2
        rw [hai] at hai2
        cases hai2
        exact absurd hcat2 hcat
      · intro k hk
        rw [hev] at hk
        match k, hk with
        | 0, hk => simp at hk
        | 1, hk => simp at hk
        | (n + 2), hk => simp [List.get?] at hk

/-- Claim C9, witness. -/
theorem notification_enqueue_iff_after_persist_witness :
    Event.enqueueNotification 1 ∈ (process_support_request envOkC [reqC] 1).1 :=
  ((notification_enqueue_iff_after_persist envOkC [reqC] 1 rfl).1).mpr
    ⟨reqC, fallback_classify reqC.subject reqC.description,
     by decide, by decide, by decide, by decide⟩

/-- Claim C10. If `notification_sent` is already "true", any delivery of
the notification task (and any repeated delivery) performs zero webhook
POSTs and leaves the store unchanged. -/
theorem notification_guard_idempotent (env env2 : NotifEnv) (db : List SupportRequest)
    (rid : Nat) (request : SupportRequest)
    (hfind : dbFirst db rid = some request)
    (hsent : request.notification_sent = "true") :
    send_teams_notification env db rid = (db, 0, .success none) ∧
    send_teams_notification env2 db rid = (db, 0, .success none) := by
  have hb : (request.notification_sent == "true") = true := beq_iff_eq.mpr hsent
  constructor <;> simp [send_teams_notification, hfind, hb]

/-- Claim C10, witness. -/
theorem notification_guard_idempotent_witness :
    send_teams_notification envNoWebhook [reqSent] 1 = ([reqSent], 0, .success none) ∧
    send_teams_notification envNoWebhook [reqSent] 1 = ([reqSent], 0, .success none) :=
  notification_guard_idempotent envNoWebhook envNoWebhook [reqSent] 1 reqSent
    (by decide) (by decide)

end SupportSystem
